import Mathlib

/-!
Verification development for the session-lifecycle core (`src/rust/engine/src/session.rs`)
and the protocol conversions (`process_execution/bazel_protos/src/conversions.rs`)
of the pants engine.

The Rust code is shallowly embedded:

* Machine integers (`u32`, `usize`, `i64`) become `Nat`/`Int` with explicit
  wrapping where the source can overflow.
* `Arc`/`Weak` reference counting, `AsyncLatch` states, and the registry's
  interior mutability become an explicit `World` state record that every
  stateful operation threads through.  Handles, latches and session states
  are identified by `Nat` allocation indices.
* `panic!`-style aborts and fallible operations become `Except String`.
* External collaborators (the `Core`/graph, `WorkunitStore`, `ConsoleUI`,
  python values) are opaque and are represented by their identities (`Nat`)
  or by function parameters, exactly as far as `session.rs` consumes them.
-/

set_option maxHeartbeats 1000000

/-- Interval at which stragglers are logged (`STRAGGLER_LOGGING_INTERVAL` in
`session.rs`, 30 seconds; time is modelled in whole seconds). -/
def STRAGGLER_LOGGING_INTERVAL : Nat := 30

/-- Embeds the `SessionDisplay` enum of `session.rs`.  The `ConsoleUI` variant
wraps `ConsoleUI::new(workunit_store.clone(), parallelism)`; the external
renderer is opaque, so only its construction arguments are recorded. -/
inductive SessionDisplay where
  | consoleUI (workunit_store : Nat) (parallelism : Nat)
  | logging (straggler_threshold : Nat) (straggler_deadline : Option Nat)
deriving DecidableEq, Repr

/-- Embeds `SessionDisplay::new`: the interactive `ConsoleUI` when
`should_render_ui`, otherwise passive logging with a 60 second straggler
threshold and an unarmed (`None`) straggler deadline. -/
def SessionDisplay.new (workunit_store : Nat) (parallelism : Nat)
    (should_render_ui : Bool) : SessionDisplay :=
  if should_render_ui then
    SessionDisplay.consoleUI workunit_store parallelism
  else
    SessionDisplay.logging 60 none

/-- Embeds the `SessionHandle` struct: build id, the cancellation latch
(identified by its allocation index; the latch state lives in `World`),
the isolation flag and the display mode. -/
structure SessionHandle where
  build_id : String
  cancelled : Nat
  isolated : Bool
  display : SessionDisplay
deriving DecidableEq, Repr

/-- Embeds the `SessionState` struct.  `core` is consumed by `session.rs` only
for `core.local_parallelism`, `core.graph.len()` and `core.sessions`, so the
parallelism is stored directly and the registry lives in `World`.  Opaque
python values (`session_values`) and the workunit store are identities. -/
structure SessionState where
  core_local_parallelism : Nat
  preceding_graph_size : Nat
  roots : Nat → Option (Option Nat)
  workunit_store : Nat
  session_values : Nat
  run_id : Nat

/-- Embeds the `Session` struct: an `Arc<SessionHandle>` and an
`Arc<SessionState>`, both as allocation indices into `World`. -/
structure Session where
  handle : Nat
  state : Nat
deriving DecidableEq, Repr

/-- The explicit heap and registry state threaded through every operation:
latch states, allocated handles with their strong (owning) reference counts,
allocated session states, and the `Sessions` registry fields
(`sessions : Option (List of weak handles)` and the run-id counter). -/
structure World where
  latchSt : Nat → Bool
  nextLatch : Nat
  handles : Nat → Option SessionHandle
  strong : Nat → Nat
  nextHandle : Nat
  states : Nat → Option SessionState
  nextState : Nat
  sessions : Option (List Nat)
  run_id_generator : Nat

/-- Modelled from the spec: `AsyncLatch::trigger` (the `async_latch` crate is
not under `src/`); spec section 4.1 states it is an idempotent one-shot set of
the triggered state.  Triggers the latch `l`. -/
def AsyncLatch.trigger (w : World) (l : Nat) : World :=
  { w with latchSt := fun x => if x = l then true else w.latchSt x }

/-- Modelled from the spec: `AsyncLatch::poll_triggered`, a non-blocking read
of the latch state; observation through any clone of the latch. -/
def AsyncLatch.poll_triggered (w : World) (l : Nat) : Bool :=
  w.latchSt l

/-- Modelled from the spec: `AsyncLatch::new` allocates a fresh, untriggered
latch. -/
def AsyncLatch.mkNew (w : World) : World × Nat :=
  ({ w with
      latchSt := fun x => if x = w.nextLatch then false else w.latchSt x,
      nextLatch := w.nextLatch + 1 },
   w.nextLatch)

/-- Embeds `SessionHandle::cancel`: `self.cancelled.trigger()`. -/
def SessionHandle.cancel (w : World) (h : Nat) : World :=
  match w.handles h with
  | some rec => AsyncLatch.trigger w rec.cancelled
  | none => w

/-- Embeds `Weak::<SessionHandle>::upgrade`: yields the handle while at least
one owning reference survives. -/
def Weak.upgrade (w : World) (h : Nat) : Option SessionHandle :=
  if w.strong h > 0 then w.handles h else none

/-- Embeds dropping one owning (`Arc`) reference of a `SessionHandle`.  When
the last owner is dropped, the `Drop` impl in `session.rs` runs
(`self.cancelled.trigger()`) and the handle is deallocated, after which weak
upgrades fail. -/
def dropOwner (w : World) (h : Nat) : World :=
  if w.strong h ≤ 1 then
    let w1 := match w.handles h with
      | some rec => AsyncLatch.trigger w rec.cancelled
      | none => w
    { w1 with
        strong := fun x => if x = h then 0 else w.strong x,
        handles := fun x => if x = h then none else w.handles x }
  else
    { w with strong := fun x => if x = h then w.strong x - 1 else w.strong x }

/-- Embeds `Sessions::add`: under the registry lock, prune dead weak entries,
then append a weak reference to the new handle; fail with a fixed error when
the registry is in shutdown state (`None`). -/
def Sessions.add (w : World) (h : Nat) : World × Except String Unit :=
  match w.sessions with
  | some l =>
      ({ w with sessions := some ((l.filter fun x => (Weak.upgrade w x).isSome) ++ [h]) },
       Except.ok ())
  | none =>
      (w, Except.error "The scheduler is shutting down: no new sessions may be created.")

/-- Embeds `Sessions::generate_run_id`: `fetch_add(1)` returning the prior
counter value (wrapping of the `u32` is irrelevant to the claims and is
omitted from the returned value only, not from equality of ids). -/
def Sessions.generate_run_id (w : World) : World × Nat :=
  ({ w with run_id_generator := w.run_id_generator + 1 }, w.run_id_generator)

/-- Embeds `Session::new`.  `WorkunitStore::new(!should_render_ui)` is an
opaque collaborator, passed as the identity `workunit_store`; `core` supplies
`local_parallelism` and `graph.len()` as parameters.  A fresh
`Arc<SessionHandle>` is allocated, registered with the registry (on failure
the `?` drops the just-created `Arc`, which triggers the caller-provided
latch), then a run id is generated and the `SessionState` allocated. -/
def Session.new (w : World) (core_local_parallelism graph_len : Nat)
    (should_render_ui : Bool) (build_id : String) (session_values : Nat)
    (cancelled : Nat) (workunit_store : Nat) : World × Except String Session :=
  let display := SessionDisplay.new workunit_store core_local_parallelism should_render_ui
  let hid := w.nextHandle
  let w1 := { w with
    handles := fun x => if x = hid then
        some { build_id := build_id, cancelled := cancelled,
               isolated := false, display := display }
      else w.handles x,
    strong := fun x => if x = hid then 1 else w.strong x,
    nextHandle := w.nextHandle + 1 }
  match Sessions.add w1 hid with
  | (w2, Except.error e) => (dropOwner w2 hid, Except.error e)
  | (w2, Except.ok ()) =>
      let g := Sessions.generate_run_id w2
      let sid := g.1.nextState
      let w3 := { g.1 with
        states := fun x => if x = sid then
            some { core_local_parallelism := core_local_parallelism,
                   preceding_graph_size := graph_len,
                   roots := fun _ => none,
                   workunit_store := workunit_store,
                   session_values := session_values,
                   run_id := g.2 }
          else g.1.states x,
        nextState := g.1.nextState + 1 }
      (w3, Except.ok { handle := hid, state := sid })

/-- Embeds `Session::isolated_shallow_clone`: a new `SessionHandle` (new build
id, fresh `AsyncLatch::new()`, a display constructed with
`should_render_ui = false`, and `isolated: true`) registered with the
registry, sharing the *same* `SessionState`.  The unreachable dead-state
branch exists only for totality: a `Session` always owns its state `Arc`. -/
def Session.isolated_shallow_clone (w : World) (s : Session) (build_id : String) :
    World × Except String Session :=
  match w.states s.state with
  | none => (w, Except.error "unreachable: a Session always holds a live SessionState")
  | some st =>
    let display := SessionDisplay.new st.workunit_store st.core_local_parallelism false
    let alloc := AsyncLatch.mkNew w
    let w1 := alloc.1
    let hid := w1.nextHandle
    let w2 := { w1 with
      handles := fun x => if x = hid then
          some { build_id := build_id, cancelled := alloc.2,
                 isolated := true, display := display }
        else w1.handles x,
      strong := fun x => if x = hid then 1 else w1.strong x,
      nextHandle := w1.nextHandle + 1 }
    match Sessions.add w2 hid with
    | (w3, Except.error e) => (dropOwner w3 hid, Except.error e)
    | (w3, Except.ok ()) => (w3, Except.ok { handle := hid, state := s.state })

/-- Embeds `Session::cancel`: delegates to the handle. -/
def Session.cancel (w : World) (s : Session) : World :=
  SessionHandle.cancel w s.handle

/-- Embeds `Session::is_cancelled`: `self.handle.cancelled.poll_triggered()`.
The dead-handle branch is unreachable while the `Session` owns its handle. -/
def Session.is_cancelled (w : World) (s : Session) : Bool :=
  match w.handles s.handle with
  | some rec => AsyncLatch.poll_triggered w rec.cancelled
  | none => false

/-- Embeds `Session::roots_extend`: `roots.extend(new_roots)` on the shared
state's map; a later pair for the same root overwrites. -/
def Session.roots_extend (w : World) (s : Session)
    (new_roots : List (Nat × Option Nat)) : World :=
  match w.states s.state with
  | some st =>
      let roots2 := new_roots.foldl
        (fun m p => fun r => if r = p.1 then some p.2 else m r) st.roots
      { w with states := fun x => if x = s.state then some { st with roots := roots2 }
          else w.states x }
  | none => w

/-- Embeds `Session::roots_zip_last_observed`: for each input root, its
last-observed marker (`roots.get(root).cloned().unwrap_or(None)`) paired with
the root. -/
def Session.roots_zip_last_observed (w : World) (s : Session) (inputs : List Nat) :
    List (Nat × Option Nat) :=
  match w.states s.state with
  | some st => inputs.map fun root => (root, (st.roots root).getD none)
  | none => []

/-- Embeds one iteration of the signal-handling loop installed by
`Sessions::new`: on a received interrupt, snapshot the live (`upgrade`-able)
non-isolated sessions from the registry list (an empty snapshot when the
registry is shut down), then cancel each. -/
def Sessions.interruptStep (w : World) : World :=
  let cancellable_sessions :=
    match w.sessions with
    | some l => (l.filterMap (Weak.upgrade w)).filter fun (s : SessionHandle) => !s.isolated
    | none => []
  cancellable_sessions.foldl (fun w2 (s : SessionHandle) => AsyncLatch.trigger w2 s.cancelled) w

/-- The timeout error produced by `Sessions::shutdown`
(`format!("Some Sessions did not shutdown within {:?}.", timeout)`). -/
def shutdownErrMsg (timeout : Nat) : String :=
  "Some Sessions did not shutdown within " ++ toString timeout ++ "."

/-- Embeds `Sessions::shutdown`.  The live-session list is taken (replaced by
`None`); for each session still live at that instant a clone of its
cancellation latch is awaited under `tokio::time::timeout`.  The await is
modelled by `fireTime`: the instant (relative to the start of the call) at
which each latch becomes triggered, `none` when it never does.  The joined
wait completes within the deadline exactly when every live session's latch
fires strictly before `timeout`; otherwise the timeout error is returned.
Latch states themselves are not modified: `shutdown` only awaits. -/
def Sessions.shutdown (w : World) (fireTime : Nat → Option Nat) (timeout : Nat) :
    World × Except String Unit :=
  match w.sessions with
  | none => (w, Except.ok ())
  | some l =>
      let w2 := { w with sessions := none }
      let live := l.filterMap (Weak.upgrade w)
      if live.all fun rec =>
          match fireTime rec.cancelled with
          | some t => decide (t < timeout)
          | none => false
      then (w2, Except.ok ())
      else (w2, Except.error (shutdownErrMsg timeout))

/-- Embeds the `SessionDisplay` branch of `Session::maybe_display_initialize`:
the passive variant arms its straggler deadline to
`Instant::now() + STRAGGLER_LOGGING_INTERVAL`; the interactive variant starts
the external renderer (opaque here, failures only warned). -/
def maybe_display_initialize (d : SessionDisplay) (now : Nat) : SessionDisplay :=
  match d with
  | SessionDisplay.consoleUI ws par => SessionDisplay.consoleUI ws par
  | SessionDisplay.logging thr _ =>
      SessionDisplay.logging thr (some (now + STRAGGLER_LOGGING_INTERVAL))

/-- Embeds the `SessionDisplay` branch of `Session::maybe_display_teardown`:
the passive variant clears its straggler deadline. -/
def maybe_display_teardown (d : SessionDisplay) : SessionDisplay :=
  match d with
  | SessionDisplay.consoleUI ws par => SessionDisplay.consoleUI ws par
  | SessionDisplay.logging thr _ => SessionDisplay.logging thr none

/-- Embeds `Session::maybe_display_render`.  `lockBusy` models
`display.try_lock()` failing, in which case rendering is skipped silently.
In the passive variant, when the armed deadline has passed, the deadline is
re-armed 30 seconds from now and one log line per straggling workunit is
emitted, `"<duration>\t<description>"` joined by newlines; the workunit store
query and the duration formatter are opaque collaborators passed as
functions.  The returned `Option String` is the emitted straggler report. -/
def maybe_display_render (d : SessionDisplay) (lockBusy : Bool) (now : Nat)
    (straggling_workunits : Nat → List (Nat × String)) (fmt : Nat → String) :
    SessionDisplay × Option String :=
  if lockBusy then (d, none)
  else
    match d with
    | SessionDisplay.consoleUI ws par => (SessionDisplay.consoleUI ws par, none)
    | SessionDisplay.logging thr dl =>
        if (dl.map fun sd => decide (sd < now)).getD false then
          let sw := straggling_workunits thr
          (SessionDisplay.logging thr (some (now + STRAGGLER_LOGGING_INTERVAL)),
           if sw.isEmpty then none
           else some ("Long running tasks:\n  " ++
             String.intercalate "\n  " (sw.map fun p => fmt p.1 ++ "\t" ++ p.2)))
        else (SessionDisplay.logging thr dl, none)

/-- Well-formedness of a world: latch indices of allocated handles are below
the allocation cursor, handle indices are below theirs, and distinct live
handles own distinct latches (each `SessionHandle` in `session.rs` owns its
own `AsyncLatch`). -/
structure WF (w : World) : Prop where
  latch_lt : ∀ h rec, w.handles h = some rec → rec.cancelled < w.nextLatch
  handle_lt : ∀ h rec, w.handles h = some rec → h < w.nextHandle
  latch_inj : ∀ h1 h2 r1 r2, w.handles h1 = some r1 → w.handles h2 = some r2 →
    r1.cancelled = r2.cancelled → h1 = h2

/-! ## Protocol conversions (`bazel_protos/src/conversions.rs`) -/

/-- Modelled from the spec: hex-digit decoding as used by
`hashing::Fingerprint::from_hex_string` (the `hashing` crate is not under
`src/`); a hex digit in either case decodes to its value. -/
def decodeHexDigit (c : Char) : Option Nat :=
  if c ≥ '0' ∧ c ≤ '9' then some (c.toNat - '0'.toNat)
  else if c ≥ 'a' ∧ c ≤ 'f' then some (c.toNat - 'a'.toNat + 10)
  else if c ≥ 'A' ∧ c ≤ 'F' then some (c.toNat - 'A'.toNat + 10)
  else none

/-- Modelled from the spec: pairwise hex decoding of a character list into
bytes; fails on any non-hex character or an odd-length input. -/
def decodeHexPairs : List Char → Option (List Nat)
  | [] => some []
  | [_] => none
  | c1 :: c2 :: rest =>
      match decodeHexDigit c1, decodeHexDigit c2, decodeHexPairs rest with
      | some hi, some lo, some bs => some ((hi * 16 + lo) :: bs)
      | _, _, _ => none

/-- Modelled from the spec: a `hashing::Fingerprint` is 32 bytes; bytes are
`Nat` values below 256. -/
abbrev Fingerprint : Type := List Nat

/-- Modelled from the spec: `Fingerprint::to_hex`, the lowercase hex rendering
of the 32 bytes. -/
def Fingerprint.to_hex (fp : Fingerprint) : String :=
  String.mk (fp.flatMap fun b => [Nat.digitChar (b / 16), Nat.digitChar (b % 16)])

/-- Modelled from the spec: `Fingerprint::from_hex_string` accepts exactly a
valid 64-hex-character string (32 bytes) and fails with a descriptive error
otherwise. -/
def Fingerprint.from_hex_string (s : String) : Except String Fingerprint :=
  match decodeHexPairs s.data with
  | some bs =>
      if bs.length = 32 then Except.ok bs
      else Except.error ("Invalid string length " ++ toString s.length)
  | none => Except.error ("Invalid hex string " ++ s)

/-- Embeds `hashing::Digest`: a fingerprint and a size in bytes (`usize`,
modelled as a `Nat` below `2^64` where the wire casts matter). -/
structure HashingDigest where
  fingerprint : Fingerprint
  size : Nat
deriving DecidableEq

/-- Embeds `remote_execution::Digest` (the protobuf2 wire form): a hash string
and an `i64` byte size. -/
structure REDigest where
  hash : String
  size_bytes : Int
deriving DecidableEq

/-- Embeds `v2::Digest` (the prost wire form): identical fields. -/
structure V2Digest where
  hash : String
  size_bytes : Int
deriving DecidableEq

/-- The `usize as i64` cast of `conversions.rs`: two's-complement wrap of the
size into a signed 64-bit value. -/
def i64_of_usize (n : Nat) : Int :=
  let m : Nat := n % 2 ^ 64
  if m < 2 ^ 63 then (m : Int) else (m : Int) - 2 ^ 64

/-- The `i64 as usize` cast of `conversions.rs`: reinterpret the signed value
as an unsigned 64-bit value. -/
def usize_of_i64 (i : Int) : Nat :=
  (i % (2 ^ 64 : Int)).toNat

/-- Rust `{:?}` formatting of a string as used in the bad-fingerprint error
message: the string surrounded by double quotes (no character in a hex-hash
slot needs escaping). -/
def rustDebugStr (s : String) : String :=
  "\"" ++ s ++ "\""

/-- Embeds `impl From<&hashing::Digest> for remote_execution::Digest`
(lines 3-10 of `conversions.rs`). -/
def digest_to_remote_execution (d : HashingDigest) : REDigest :=
  { hash := Fingerprint.to_hex d.fingerprint, size_bytes := i64_of_usize d.size }

/-- Embeds `impl From<&hashing::Digest> for v2::Digest` (lines 12-19). -/
def digest_to_v2 (d : HashingDigest) : V2Digest :=
  { hash := Fingerprint.to_hex d.fingerprint, size_bytes := i64_of_usize d.size }

/-- Embeds `impl From<&remote_execution::Digest> for Result<hashing::Digest,
String>` (lines 21-27): decode the hash, mapping a failure to the
`"Bad fingerprint in Digest {:?}: {:?}"` error. -/
def remote_execution_to_digest (d : REDigest) : Except String HashingDigest :=
  match Fingerprint.from_hex_string d.hash with
  | Except.ok fp => Except.ok { fingerprint := fp, size := usize_of_i64 d.size_bytes }
  | Except.error err =>
      Except.error ("Bad fingerprint in Digest " ++ rustDebugStr d.hash ++ ": " ++ err)

/-- Embeds `impl From<&v2::Digest> for Result<hashing::Digest, String>`
(lines 29-37): identical logic on the prost form. -/
def v2_to_digest (d : V2Digest) : Except String HashingDigest :=
  match Fingerprint.from_hex_string d.hash with
  | Except.ok fp => Except.ok { fingerprint := fp, size := usize_of_i64 d.size_bytes }
  | Except.error err =>
      Except.error ("Bad fingerprint in Digest " ++ rustDebugStr d.hash ++ ": " ++ err)

/-- Embeds `remote_execution::ExecuteRequest` (protobuf2): the optional
message fields carry `has_*` presence; the policy payloads themselves are
irrelevant to the conversion and are `Unit`. -/
structure REExecuteRequest where
  action_digest : Option REDigest
  instance_name : String
  execution_policy : Option Unit
  results_cache_policy : Option Unit
  skip_cache_lookup : Bool
deriving DecidableEq

/-- Embeds `v2::ExecuteRequest` (prost). -/
structure V2ExecuteRequest where
  action_digest : Option V2Digest
  instance_name : String
  execution_policy : Option Unit
  results_cache_policy : Option Unit
  skip_cache_lookup : Bool
deriving DecidableEq

/-- Embeds `req.get_action_digest()`: protobuf2 getters return the default
message (`hash: "", size_bytes: 0`) when the field is unset. -/
def REExecuteRequest.get_action_digest (req : REExecuteRequest) : REDigest :=
  req.action_digest.getD { hash := "", size_bytes := 0 }

/-- Embeds `impl From<remote_execution::ExecuteRequest> for
v2::ExecuteRequest` (lines 61-77).  The `panic!` and `.expect` aborts are
modelled as `Except.error` carrying the panic message. -/
def executeRequest_re_to_v2 (req : REExecuteRequest) :
    Except String V2ExecuteRequest :=
  if req.execution_policy.isSome || req.results_cache_policy.isSome then
    Except.error "Can't convert ExecuteRequest protos with execution policy or results cache policy"
  else
    match remote_execution_to_digest req.get_action_digest with
    | Except.error _ => Except.error "Bad digest converting ExecuteRequest proto"
    | Except.ok digest =>
        Except.ok
          { action_digest := some (digest_to_v2 digest),
            instance_name := req.instance_name,
            execution_policy := none,
            results_cache_policy := none,
            skip_cache_lookup := req.skip_cache_lookup }

/-- Embeds `impl From<v2::ExecuteRequest> for remote_execution::ExecuteRequest`
(lines 80-98).  A missing `action_digest` hits the
`.expect("Missing digest converting ExecuteRequest proto")` abort. -/
def executeRequest_v2_to_re (req : V2ExecuteRequest) :
    Except String REExecuteRequest :=
  if req.execution_policy.isSome || req.results_cache_policy.isSome then
    Except.error "Can't convert ExecuteRequest protos with execution policy or results cache policy"
  else
    match req.action_digest with
    | none => Except.error "Missing digest converting ExecuteRequest proto"
    | some ad =>
        match v2_to_digest ad with
        | Except.error _ => Except.error "Bad digest converting ExecuteRequest proto"
        | Except.ok digest =>
            Except.ok
              { action_digest := some (digest_to_remote_execution digest),
                instance_name := req.instance_name,
                execution_policy := none,
                results_cache_policy := none,
                skip_cache_lookup := req.skip_cache_lookup }

/-- Discriminates the success of an `Except` computation. -/
def exceptIsOk {α : Type} (e : Except String α) : Bool :=
  match e with
  | Except.ok _ => true
  | Except.error _ => false

/-- The error text of an `Except` computation (empty on success). -/
def exceptErrText {α : Type} (e : Except String α) : String :=
  match e with
  | Except.ok _ => ""
  | Except.error s => s

/-! ## Concrete instances used to exhibit satisfiability of the hypotheses -/

/-- A live, non-isolated handle with an interactive display, owning latch 0. -/
def originHandle : SessionHandle :=
  { build_id := "origin", cancelled := 0, isolated := false,
    display := SessionDisplay.consoleUI 5 4 }

/-- A live, isolated handle owning latch 1. -/
def isoHandle : SessionHandle :=
  { build_id := "background", cancelled := 1, isolated := true,
    display := SessionDisplay.logging 60 none }

/-- The shared state of the concrete origin session. -/
def originState : SessionState :=
  { core_local_parallelism := 4, preceding_graph_size := 10,
    roots := fun _ => none, workunit_store := 5, session_values := 0, run_id := 0 }

/-- A world with one live, non-isolated, uncancelled session registered. -/
def w1c : World :=
  { latchSt := fun _ => false, nextLatch := 1,
    handles := fun x => if x = 0 then some originHandle else none,
    strong := fun x => if x = 0 then 1 else 0,
    nextHandle := 1,
    states := fun x => if x = 0 then some originState else none,
    nextState := 1,
    sessions := some [0],
    run_id_generator := 1 }

/-- The session living in `w1c`. -/
def sess0 : Session := { handle := 0, state := 0 }

/-- The world `w1c` after shutdown has taken the session list. -/
def wShut : World := { w1c with sessions := none }

/-- A world with one live non-isolated session (handle 0, latch 0) and one
live isolated session (handle 1, latch 1), both registered. -/
def w2c : World :=
  { latchSt := fun _ => false, nextLatch := 2,
    handles := fun x =>
      if x = 0 then some originHandle else if x = 1 then some isoHandle else none,
    strong := fun x => if x ≤ 1 then 1 else 0,
    nextHandle := 2,
    states := fun _ => none, nextState := 0,
    sessions := some [0, 1],
    run_id_generator := 2 }

/-- A valid 64-hex-character hash string. -/
def hex64 : String :=
  "0123456789abcdeffedcba98765432100000000000000000ffffffffffffffff"

/-- The fingerprint bytes encoded by `hex64`. -/
def fp32 : Fingerprint :=
  [1, 35, 69, 103, 137, 171, 205, 239, 254, 220, 186, 152, 118, 84, 50, 16,
   0, 0, 0, 0, 0, 0, 0, 0, 255, 255, 255, 255, 255, 255, 255, 255]

/-- A concrete valid native digest. -/
def goodDigest : HashingDigest := { fingerprint := fp32, size := 10 }

/-- A concrete wire digest with the 1-character invalid hash `"0"`. -/
def badREDigest : REDigest := { hash := "0", size_bytes := 10 }

/-- A protobuf2 `ExecuteRequest` carrying an execution policy. -/
def rePolicyReq : REExecuteRequest :=
  { action_digest := some (digest_to_remote_execution goodDigest),
    instance_name := "", execution_policy := some (), results_cache_policy := none,
    skip_cache_lookup := false }

/-- A prost `ExecuteRequest` carrying a results-cache policy. -/
def v2PolicyReq : V2ExecuteRequest :=
  { action_digest := some (digest_to_v2 goodDigest),
    instance_name := "", execution_policy := none, results_cache_policy := some (),
    skip_cache_lookup := false }

/-- A protobuf2 `ExecuteRequest` without policies and with a valid digest. -/
def reGoodReq : REExecuteRequest :=
  { action_digest := some (digest_to_remote_execution goodDigest),
    instance_name := "main", execution_policy := none, results_cache_policy := none,
    skip_cache_lookup := true }

/-- A prost `ExecuteRequest` without policies and with a valid digest. -/
def v2GoodReq : V2ExecuteRequest :=
  { action_digest := some (digest_to_v2 goodDigest),
    instance_name := "main", execution_policy := none, results_cache_policy := none,
    skip_cache_lookup := true }

/-- A prost `ExecuteRequest` without policies but with a missing action
digest. -/
def v2NoDigestReq : V2ExecuteRequest :=
  { action_digest := none,
    instance_name := "", execution_policy := none, results_cache_policy := none,
    skip_cache_lookup := false }

/-! ## Helper lemmas -/

theorem trigger_latchSt (w : World) (l x : Nat) :
    (AsyncLatch.trigger w l).latchSt x = if x = l then true else w.latchSt x := rfl

theorem foldl_trigger_latchSt (L : List SessionHandle) (w : World) (x : Nat) :
    (L.foldl (fun w2 (s : SessionHandle) => AsyncLatch.trigger w2 s.cancelled) w).latchSt x =
      (decide (x ∈ L.map SessionHandle.cancelled) || w.latchSt x) := by
  induction L generalizing w with
  | nil => simp
  | cons a as ih =>
      simp only [List.foldl_cons, ih, List.map_cons, List.mem_cons, trigger_latchSt]
      by_cases hxa : x = a.cancelled <;> simp [hxa]

theorem upgrade_eq_some (w : World) (h : Nat) (rec : SessionHandle)
    (hup : Weak.upgrade w h = some rec) : w.handles h = some rec ∧ 0 < w.strong h := by
  unfold Weak.upgrade at hup
  split at hup
  · exact ⟨hup, by assumption⟩
  · exact absurd hup (by simp)

theorem w1c_handles_cases (h : Nat) (rec : SessionHandle)
    (hh : w1c.handles h = some rec) : h = 0 ∧ rec = originHandle := by
  by_cases h0 : h = 0
  · subst h0
    simp only [w1c, if_true, Option.some.injEq] at hh
    exact ⟨rfl, hh.symm⟩
  · simp [w1c, h0] at hh

theorem WF_w1c : WF w1c := by
  refine ⟨?_, ?_, ?_⟩
  · intro h rec hh
    obtain ⟨h0, hrec⟩ := w1c_handles_cases h rec hh
    subst hrec
    decide
  · intro h rec hh
    obtain ⟨h0, hrec⟩ := w1c_handles_cases h rec hh
    subst h0
    decide
  · intro h1 h2 r1 r2 hh1 hh2 _
    obtain ⟨ha, _⟩ := w1c_handles_cases h1 r1 hh1
    obtain ⟨hb, _⟩ := w1c_handles_cases h2 r2 hh2
    omega

theorem w2c_handles_cases (h : Nat) (rec : SessionHandle)
    (hh : w2c.handles h = some rec) :
    (h = 0 ∧ rec = originHandle) ∨ (h = 1 ∧ rec = isoHandle) := by
  by_cases h0 : h = 0
  · subst h0
    simp only [w2c, if_true, Option.some.injEq] at hh
    exact Or.inl ⟨rfl, hh.symm⟩
  · by_cases h1 : h = 1
    · subst h1
      simp only [w2c, if_neg (by omega : ¬(1 = 0)), if_true, Option.some.injEq] at hh
      exact Or.inr ⟨rfl, hh.symm⟩
    · simp [w2c, h0, h1] at hh

theorem WF_w2c : WF w2c := by
  refine ⟨?_, ?_, ?_⟩
  · intro h rec hh
    rcases w2c_handles_cases h rec hh with ⟨_, hrec⟩ | ⟨_, hrec⟩ <;> subst hrec <;> decide
  · intro h rec hh
    rcases w2c_handles_cases h rec hh with ⟨h0, _⟩ | ⟨h1, _⟩ <;> subst_vars <;> decide
  · intro h1 h2 r1 r2 hh1 hh2 heq
    rcases w2c_handles_cases h1 r1 hh1 with ⟨ha, hra⟩ | ⟨ha, hra⟩ <;>
      rcases w2c_handles_cases h2 r2 hh2 with ⟨hb, hrb⟩ | ⟨hb, hrb⟩ <;>
      subst hra <;> subst hrb <;> simp_all [originHandle, isoHandle]

/-! ## Claims C3 and C4 -/

/-- Claim C3: dropping the last owning reference of a `SessionHandle` (with no
explicit `cancel()` call) runs its `Drop` impl, which triggers its
cancellation latch; any surviving observer of the (shared) latch then reads
the cancellation state as `true`; the handle itself is deallocated, so later
weak upgrades fail. -/
theorem drop_last_owner_triggers_latch (w : World) (h : Nat) (rec : SessionHandle)
    (hh : w.handles h = some rec) (hstrong : w.strong h = 1) :
    AsyncLatch.poll_triggered (dropOwner w h) rec.cancelled = true ∧
    (dropOwner w h).handles h = none := by
  unfold dropOwner
  rw [if_pos (by omega), hh]
  constructor
  · show (AsyncLatch.trigger w rec.cancelled).latchSt rec.cancelled = true
    simp [trigger_latchSt]
  · simp

theorem drop_last_owner_triggers_latch_witness :
    w1c.handles 0 = some originHandle ∧ w1c.strong 0 = 1 ∧
    (AsyncLatch.poll_triggered (dropOwner w1c 0) originHandle.cancelled = true ∧
     (dropOwner w1c 0).handles 0 = none) :=
  ⟨rfl, rfl, drop_last_owner_triggers_latch w1c 0 originHandle rfl rfl⟩

/-- Claim C4: one step of the registry's signal-handling loop triggers the
latch of every currently-live non-isolated session in the registry, and
leaves the cancellation state of every live isolated session unchanged. -/
theorem interrupt_cancels_nonisolated_spares_isolated
    (w : World) (l : List Nat) (h : Nat) (rec : SessionHandle)
    (hWF : WF w) (hs : w.sessions = some l) (hmem : h ∈ l)
    (hup : Weak.upgrade w h = some rec) :
    (rec.isolated = false → (Sessions.interruptStep w).latchSt rec.cancelled = true) ∧
    (rec.isolated = true →
      (Sessions.interruptStep w).latchSt rec.cancelled = w.latchSt rec.cancelled) := by
  unfold Sessions.interruptStep
  simp only [hs]
  constructor
  · intro hiso
    rw [foldl_trigger_latchSt]
    have hmem2 : rec.cancelled ∈
        ((l.filterMap (Weak.upgrade w)).filter
          fun (s : SessionHandle) => !s.isolated).map SessionHandle.cancelled := by
      refine List.mem_map.mpr ⟨rec, ?_, rfl⟩
      refine List.mem_filter.mpr ⟨List.mem_filterMap.mpr ⟨h, hmem, hup⟩, by simp [hiso]⟩
    simp [hmem2]
  · intro hiso
    rw [foldl_trigger_latchSt]
    have hnotmem : rec.cancelled ∉
        ((l.filterMap (Weak.upgrade w)).filter
          fun (s : SessionHandle) => !s.isolated).map SessionHandle.cancelled := by
      intro hmm
      obtain ⟨rec2, hrec2, hlatch⟩ := List.mem_map.mp hmm
      obtain ⟨hrec2f, hni⟩ := List.mem_filter.mp hrec2
      obtain ⟨h2, _, hup2⟩ := List.mem_filterMap.mp hrec2f
      obtain ⟨hh2, _⟩ := upgrade_eq_some w h2 rec2 hup2
      obtain ⟨hh1, _⟩ := upgrade_eq_some w h rec hup
      have heq := hWF.latch_inj h2 h rec2 rec hh2 hh1 hlatch
      subst heq
      rw [hh2] at hh1
      cases hh1
      rw [hiso] at hni
      simp at hni
    simp [hnotmem]

theorem interrupt_witness :
    Weak.upgrade w2c 0 = some originHandle ∧
    Weak.upgrade w2c 1 = some isoHandle ∧
    originHandle.isolated = false ∧ isoHandle.isolated = true ∧
    (Sessions.interruptStep w2c).latchSt originHandle.cancelled = true ∧
    (Sessions.interruptStep w2c).latchSt isoHandle.cancelled = w2c.latchSt isoHandle.cancelled :=
  ⟨rfl, rfl, rfl, rfl,
   (interrupt_cancels_nonisolated_spares_isolated w2c [0, 1] 0 originHandle WF_w2c rfl
     (by simp) rfl).1 rfl,
   (interrupt_cancels_nonisolated_spares_isolated w2c [0, 1] 1 isoHandle WF_w2c rfl
     (by simp) rfl).2 rfl⟩

/-! ## Claim C9: straggler deadline unarmed until initialize -/

/-- Claim C9: a display constructed in passive/Logging mode starts with an
unarmed (`none`) straggler deadline; `maybe_display_initialize` arms it to
`now + 30`; while it is unarmed, `maybe_display_render` leaves the display
unchanged and emits no straggler report, regardless of the workunit store
contents or lock contention. -/
theorem logging_display_unarmed_until_initialize (ws par thr now : Nat) (busy : Bool)
    (sw : Nat → List (Nat × String)) (fmt : Nat → String) :
    SessionDisplay.new ws par false = SessionDisplay.logging 60 none ∧
    maybe_display_initialize (SessionDisplay.logging thr none) now =
      SessionDisplay.logging thr (some (now + 30)) ∧
    maybe_display_render (SessionDisplay.logging thr none) busy now sw fmt =
      (SessionDisplay.logging thr none, none) := by
  refine ⟨rfl, rfl, ?_⟩
  cases busy <;> simp [maybe_display_render]

/-! ## Claim C10: isolated clones always get a passive display -/

/-- Claim C10: `isolated_shallow_clone` always constructs the clone's display
with the use-interactive-UI flag hard-coded to `false`, so the clone's handle
carries the passive `Logging` display (and the isolation flag), whatever the
origin session's display is. -/
theorem isolated_clone_display_is_logging (w : World) (s : Session) (st : SessionState)
    (bid : String) (c : Session)
    (hst : w.states s.state = some st)
    (hok : (Session.isolated_shallow_clone w s bid).2 = Except.ok c) :
    ((Session.isolated_shallow_clone w s bid).1).handles c.handle =
      some { build_id := bid, cancelled := w.nextLatch, isolated := true,
             display := SessionDisplay.logging 60 none } := by
  unfold Session.isolated_shallow_clone at hok ⊢
  rw [hst] at hok ⊢
  rcases hws : w.sessions with _ | l
  · simp [Sessions.add, AsyncLatch.mkNew, hws] at hok
  · simp only [Sessions.add, AsyncLatch.mkNew, hws, Except.ok.injEq] at hok ⊢
    rw [← hok]
    simp [SessionDisplay.new]

theorem isolated_clone_display_witness :
    w1c.states sess0.state = some originState ∧
    originHandle.display = SessionDisplay.consoleUI 5 4 ∧
    ((Session.isolated_shallow_clone w1c sess0 "background-run").1).handles
        (Session.mk 1 0).handle =
      some { build_id := "background-run", cancelled := w1c.nextLatch, isolated := true,
             display := SessionDisplay.logging 60 none } :=
  ⟨rfl, rfl,
   isolated_clone_display_is_logging w1c sess0 originState "background-run"
     (Session.mk 1 0) rfl rfl⟩

/-! ## Claim C2: registration is rejected after shutdown takes the list -/

/-- Claim C2: once shutdown has replaced the session list with `None`, every
subsequent `add` fails with the fixed error string and leaves the registry
unchanged, and therefore `Session::new` and `isolated_shallow_clone` both
fail with that same error; the registry stays in the shutdown state, so no
new session is ever registered. -/
theorem add_rejected_after_shutdown (w : World) (h par gs sv cl ws : Nat)
    (ui : Bool) (bid bid2 : String) (s : Session) (st : SessionState)
    (hshut : w.sessions = none) (hst : w.states s.state = some st) :
    Sessions.add w h =
      (w, Except.error "The scheduler is shutting down: no new sessions may be created.") ∧
    (Session.new w par gs ui bid sv cl ws).2 =
      Except.error "The scheduler is shutting down: no new sessions may be created." ∧
    ((Session.new w par gs ui bid sv cl ws).1).sessions = none ∧
    (Session.isolated_shallow_clone w s bid2).2 =
      Except.error "The scheduler is shutting down: no new sessions may be created." ∧
    ((Session.isolated_shallow_clone w s bid2).1).sessions = none := by
  refine ⟨?_, ?_, ?_, ?_, ?_⟩
  · simp [Sessions.add, hshut]
  · simp [Session.new, Sessions.add, hshut, dropOwner]
  · simp [Session.new, Sessions.add, hshut, dropOwner, AsyncLatch.trigger]
  · unfold Session.isolated_shallow_clone
    rw [hst]
    simp [Sessions.add, AsyncLatch.mkNew, hshut, dropOwner]
  · unfold Session.isolated_shallow_clone
    rw [hst]
    simp [Sessions.add, AsyncLatch.mkNew, hshut, dropOwner, AsyncLatch.trigger]

theorem add_rejected_after_shutdown_witness :
    wShut.sessions = none ∧
    wShut.states sess0.state = some originState ∧
    (Sessions.add wShut 7 =
      (wShut, Except.error "The scheduler is shutting down: no new sessions may be created.") ∧
    (Session.new wShut 4 10 true "new-run" 0 9 5).2 =
      Except.error "The scheduler is shutting down: no new sessions may be created." ∧
    ((Session.new wShut 4 10 true "new-run" 0 9 5).1).sessions = none ∧
    (Session.isolated_shallow_clone wShut sess0 "bg").2 =
      Except.error "The scheduler is shutting down: no new sessions may be created." ∧
    ((Session.isolated_shallow_clone wShut sess0 "bg").1).sessions = none) :=
  ⟨rfl, rfl,
   add_rejected_after_shutdown wShut 7 4 10 0 9 5 true "new-run" "bg" sess0 originState rfl rfl⟩

/-! ## Claim C1: shutdown succeeds exactly when all live latches fire in time -/

/-- Claim C1: when `shutdown(timeout)` takes the session list, it returns `Ok`
exactly when every session live at that instant has its cancellation latch
fire strictly before the timeout elapses; otherwise it returns the timeout
error, whose text names the timeout value.  The list is taken in all cases. -/
theorem shutdown_ok_iff_all_latches_fire (w : World) (fireTime : Nat → Option Nat)
    (timeout : Nat) (l : List Nat) (hs : w.sessions = some l) :
    ((Sessions.shutdown w fireTime timeout).2 = Except.ok () ↔
      ∀ rec ∈ l.filterMap (Weak.upgrade w),
        ∃ u, fireTime rec.cancelled = some u ∧ u < timeout) ∧
    (Sessions.shutdown w fireTime timeout).1.sessions = none ∧
    ((¬ ∀ rec ∈ l.filterMap (Weak.upgrade w),
        ∃ u, fireTime rec.cancelled = some u ∧ u < timeout) →
      (Sessions.shutdown w fireTime timeout).2 = Except.error (shutdownErrMsg timeout)) ∧
    shutdownErrMsg timeout =
      "Some Sessions did not shutdown within " ++ toString timeout ++ "." := by
  have hpred : ∀ rec : SessionHandle,
      ((match fireTime rec.cancelled with
        | some t => decide (t < timeout)
        | none => false) = true) ↔
      ∃ u, fireTime rec.cancelled = some u ∧ u < timeout := by
    intro rec
    cases hf : fireTime rec.cancelled <;> simp [hf]
  unfold Sessions.shutdown
  simp only [hs]
  by_cases hall : ((l.filterMap (Weak.upgrade w)).all fun rec =>
      match fireTime rec.cancelled with
      | some t => decide (t < timeout)
      | none => false) = true
  · rw [if_pos hall]
    rw [List.all_eq_true] at hall
    refine ⟨⟨fun _ rec hmem => (hpred rec).mp (hall rec hmem), fun _ => rfl⟩, rfl, ?_, rfl⟩
    intro hno
    exact absurd (fun rec hmem => (hpred rec).mp (hall rec hmem)) hno
  · rw [if_neg hall]
    rw [List.all_eq_true] at hall
    refine ⟨⟨fun hc => absurd hc (by simp), fun hfires => ?_⟩, rfl, fun _ => rfl, rfl⟩
    exact absurd (fun rec hmem => (hpred rec).mpr (hfires rec hmem)) hall

theorem shutdown_ok_iff_witness :
    w1c.sessions = some [0] ∧
    (((Sessions.shutdown w1c (fun _ => some 1) 5).2 = Except.ok () ↔
      ∀ rec ∈ [0].filterMap (Weak.upgrade w1c),
        ∃ u, (fun _ => some 1) rec.cancelled = some u ∧ u < 5) ∧
    (Sessions.shutdown w1c (fun _ => some 1) 5).1.sessions = none ∧
    ((¬ ∀ rec ∈ [0].filterMap (Weak.upgrade w1c),
        ∃ u, (fun _ => some 1) rec.cancelled = some u ∧ u < 5) →
      (Sessions.shutdown w1c (fun _ => some 1) 5).2 = Except.error (shutdownErrMsg 5)) ∧
    shutdownErrMsg 5 = "Some Sessions did not shutdown within " ++ toString 5 ++ ".") :=
  ⟨rfl, shutdown_ok_iff_all_latches_fire w1c (fun _ => some 1) 5 [0] rfl⟩

/-! ## Claim C5: shutdown does not itself trigger any latch -/

/-- Claim C5 counterexample: in a world with one live, never-cancelled session
registered, `shutdown` takes the list but the live session's latch is still
untriggered afterwards — the call itself triggers nothing — and the call
times out instead. -/
theorem shutdown_does_not_trigger_counterexample :
    w1c.sessions = some [0] ∧
    Weak.upgrade w1c 0 = some originHandle ∧
    originHandle.cancelled = 0 ∧
    w1c.latchSt 0 = false ∧
    AsyncLatch.poll_triggered (Sessions.shutdown w1c (fun _ => none) 5).1 0 = false ∧
    (Sessions.shutdown w1c (fun _ => none) 5).2 = Except.error (shutdownErrMsg 5) :=
  ⟨rfl, rfl, rfl, rfl, rfl, rfl⟩

/-- Claim C5 (amended): `shutdown(timeout)` triggers no cancellation latch —
it only awaits the latches of the sessions live when it takes the list, which
fire from an explicit `cancel` or from the drop of all owners; a live session
whose latch never fires therefore makes the call return the timeout error. -/
theorem shutdown_only_awaits_latches (w : World) (fireTime : Nat → Option Nat)
    (timeout : Nat) (l : List Nat) (h : Nat) (rec : SessionHandle)
    (hs : w.sessions = some l) (hmem : h ∈ l) (hup : Weak.upgrade w h = some rec) :
    (∀ x, (Sessions.shutdown w fireTime timeout).1.latchSt x = w.latchSt x) ∧
    (fireTime rec.cancelled = none →
      (Sessions.shutdown w fireTime timeout).2 = Except.error (shutdownErrMsg timeout)) := by
  unfold Sessions.shutdown
  simp only [hs]
  constructor
  · intro x
    split <;> rfl
  · intro hnone
    rw [if_neg]
    intro hall
    rw [List.all_eq_true] at hall
    have := hall rec (List.mem_filterMap.mpr ⟨h, hmem, hup⟩)
    rw [hnone] at this
    simp at this

theorem shutdown_only_awaits_witness :
    w1c.sessions = some [0] ∧
    Weak.upgrade w1c 0 = some originHandle ∧
    ((∀ x, (Sessions.shutdown w1c (fun _ => none) 5).1.latchSt x = w1c.latchSt x) ∧
    ((fun _ => none : Nat → Option Nat) originHandle.cancelled = none →
      (Sessions.shutdown w1c (fun _ => none) 5).2 = Except.error (shutdownErrMsg 5))) :=
  ⟨rfl, rfl,
   shutdown_only_awaits_latches w1c (fun _ => none) 5 [0] 0 originHandle rfl (by simp) rfl⟩

/-! ## Claim C6: isolated clones share state but cancel independently -/

theorem trigger_handles (w : World) (l : Nat) :
    (AsyncLatch.trigger w l).handles = w.handles := rfl

theorem trigger_states (w : World) (l : Nat) :
    (AsyncLatch.trigger w l).states = w.states := rfl

/-- Claim C6: an `isolated_shallow_clone` shares the origin's `SessionState`
(`roots_extend` through either session is visible through
`roots_zip_last_observed` on the other), while cancellation is independent:
cancelling the clone leaves the origin uncancelled and cancelling the origin
leaves the clone uncancelled. -/
theorem isolated_clone_shares_state_independent_cancel
    (w : World) (s : Session) (st : SessionState) (rec : SessionHandle)
    (bid : String) (c : Session) (r : Nat) (m : Option Nat)
    (hWF : WF w) (hst : w.states s.state = some st)
    (hh : w.handles s.handle = some rec) (hnc : w.latchSt rec.cancelled = false)
    (hok : (Session.isolated_shallow_clone w s bid).2 = Except.ok c) :
    c.state = s.state ∧
    Session.roots_zip_last_observed
      (Session.roots_extend (Session.isolated_shallow_clone w s bid).1 c [(r, m)]) s [r]
      = [(r, m)] ∧
    Session.roots_zip_last_observed
      (Session.roots_extend (Session.isolated_shallow_clone w s bid).1 s [(r, m)]) c [r]
      = [(r, m)] ∧
    Session.is_cancelled
      (Session.cancel (Session.isolated_shallow_clone w s bid).1 c) s = false ∧
    Session.is_cancelled
      (Session.cancel (Session.isolated_shallow_clone w s bid).1 s) c = false := by
  have hs_lt : s.handle < w.nextHandle := hWF.handle_lt s.handle rec hh
  have hl_lt : rec.cancelled < w.nextLatch := hWF.latch_lt s.handle rec hh
  rcases hws : w.sessions with _ | l
  · exfalso
    unfold Session.isolated_shallow_clone at hok
    rw [hst] at hok
    simp [Sessions.add, AsyncLatch.mkNew, hws] at hok
  · have hc2 : (Session.isolated_shallow_clone w s bid).2 =
        Except.ok { handle := w.nextHandle, state := s.state } := by
      unfold Session.isolated_shallow_clone
      rw [hst]
      simp [Sessions.add, AsyncLatch.mkNew, hws]
    have hc : c = { handle := w.nextHandle, state := s.state } := by
      rw [hc2] at hok
      exact (Except.ok.inj hok).symm
    have hW1 : (Session.isolated_shallow_clone w s bid).1.handles = fun x =>
        if x = w.nextHandle then
          some { build_id := bid, cancelled := w.nextLatch, isolated := true,
                 display := SessionDisplay.new st.workunit_store st.core_local_parallelism false }
        else w.handles x := by
      unfold Session.isolated_shallow_clone
      rw [hst]
      simp [Sessions.add, AsyncLatch.mkNew, hws]
    have hW2 : (Session.isolated_shallow_clone w s bid).1.latchSt = fun x =>
        if x = w.nextLatch then false else w.latchSt x := by
      unfold Session.isolated_shallow_clone
      rw [hst]
      simp [Sessions.add, AsyncLatch.mkNew, hws]
    have hW3 : (Session.isolated_shallow_clone w s bid).1.states = w.states := by
      unfold Session.isolated_shallow_clone
      rw [hst]
      simp [Sessions.add, AsyncLatch.mkNew, hws]
    refine ⟨by rw [hc], ?_, ?_, ?_, ?_⟩
    · unfold Session.roots_extend
      rw [hW3, hc]
      simp only [hst]
      unfold Session.roots_zip_last_observed
      simp [hst]
    · unfold Session.roots_extend
      rw [hW3]
      simp only [hst]
      unfold Session.roots_zip_last_observed
      rw [hc]
      simp [hst]
    · have hne1 : ¬ s.handle = w.nextHandle := by omega
      have hne2 : ¬ rec.cancelled = w.nextLatch := by omega
      unfold Session.cancel SessionHandle.cancel Session.is_cancelled AsyncLatch.poll_triggered
      rw [hc]
      simp [hW1, hW2, AsyncLatch.trigger, hne1, hne2, hh, hnc]
    · have hne1 : ¬ s.handle = w.nextHandle := by omega
      have hne3 : ¬ w.nextLatch = rec.cancelled := by omega
      unfold Session.cancel SessionHandle.cancel Session.is_cancelled AsyncLatch.poll_triggered
      rw [hc]
      simp [hW1, hW2, AsyncLatch.trigger, hne1, hne3, hh]

theorem isolated_clone_shares_state_witness :
    w1c.states sess0.state = some originState ∧
    w1c.handles sess0.handle = some originHandle ∧
    w1c.latchSt originHandle.cancelled = false ∧
    (Session.isolated_shallow_clone w1c sess0 "bg").2 = Except.ok (Session.mk 1 0) ∧
    ((Session.mk 1 0).state = sess0.state ∧
     Session.roots_zip_last_observed
       (Session.roots_extend (Session.isolated_shallow_clone w1c sess0 "bg").1
         (Session.mk 1 0) [(7, some 3)]) sess0 [7] = [(7, some 3)] ∧
     Session.roots_zip_last_observed
       (Session.roots_extend (Session.isolated_shallow_clone w1c sess0 "bg").1
         sess0 [(7, some 3)]) (Session.mk 1 0) [7] = [(7, some 3)] ∧
     Session.is_cancelled
       (Session.cancel (Session.isolated_shallow_clone w1c sess0 "bg").1
         (Session.mk 1 0)) sess0 = false ∧
     Session.is_cancelled
       (Session.cancel (Session.isolated_shallow_clone w1c sess0 "bg").1
         sess0) (Session.mk 1 0) = false) :=
  ⟨rfl, rfl, rfl, rfl,
   isolated_clone_shares_state_independent_cancel w1c sess0 originState originHandle "bg"
     (Session.mk 1 0) 7 (some 3) WF_w1c rfl rfl rfl rfl⟩

/-! ## Claim C7: digest conversion round-trip and bad-fingerprint error -/

theorem decodeHexDigit_digitChar (n : Nat) (hn : n < 16) :
    decodeHexDigit (Nat.digitChar n) = some n := by
  interval_cases n <;> decide

theorem decodeHexPairs_encode (fp : List Nat) (hb : ∀ b ∈ fp, b < 256) :
    decodeHexPairs
      (fp.flatMap fun b => [Nat.digitChar (b / 16), Nat.digitChar (b % 16)]) = some fp := by
  induction fp with
  | nil => rfl
  | cons b bs ih =>
      have hb0 : b < 256 := hb b (by simp)
      have h1 : b / 16 < 16 := by omega
      have h2 : b % 16 < 16 := by omega
      have hrest := ih fun x hx => hb x (by simp [hx])
      have hstep : ((b :: bs).flatMap fun c =>
            [Nat.digitChar (c / 16), Nat.digitChar (c % 16)]) =
          Nat.digitChar (b / 16) :: Nat.digitChar (b % 16) ::
            (bs.flatMap fun c => [Nat.digitChar (c / 16), Nat.digitChar (c % 16)]) := rfl
      rw [hstep]
      simp only [decodeHexPairs, decodeHexDigit_digitChar _ h1,
        decodeHexDigit_digitChar _ h2, hrest]
      have hbb : b / 16 * 16 + b % 16 = b := by omega
      rw [hbb]

theorem encode_length (fp : List Nat) :
    (fp.flatMap fun b => [Nat.digitChar (b / 16), Nat.digitChar (b % 16)]).length =
      2 * fp.length := by
  induction fp with
  | nil => rfl
  | cons b bs ih => simp [ih]; omega

theorem from_hex_to_hex (fp : Fingerprint) (hlen : fp.length = 32)
    (hb : ∀ b ∈ fp, b < 256) :
    Fingerprint.from_hex_string (Fingerprint.to_hex fp) = Except.ok fp := by
  unfold Fingerprint.from_hex_string Fingerprint.to_hex
  rw [show (String.mk (fp.flatMap fun b =>
      [Nat.digitChar (b / 16), Nat.digitChar (b % 16)])).data =
      fp.flatMap fun b => [Nat.digitChar (b / 16), Nat.digitChar (b % 16)] from rfl]
  rw [decodeHexPairs_encode fp hb]
  simp [hlen]

theorem usize_i64_round (n : Nat) (hn : n < 2 ^ 64) :
    usize_of_i64 (i64_of_usize n) = n := by
  unfold i64_of_usize usize_of_i64
  have hmod : n % 2 ^ 64 = n := Nat.mod_eq_of_lt hn
  simp only [hmod]
  split <;> omega

theorem isPrefixOf_append_self {α : Type} [BEq α] [LawfulBEq α] (p rest : List α) :
    List.isPrefixOf p (p ++ rest) = true := by
  induction p with
  | nil => simp
  | cons a as ih => simp [ih]

theorem isPrefixOf_badFingerprint (a b : String) :
    List.isPrefixOf "Bad fingerprint in Digest".data
      ("Bad fingerprint in Digest " ++ a ++ ": " ++ b).data = true := by
  have h : ("Bad fingerprint in Digest " ++ a ++ ": " ++ b).data =
      "Bad fingerprint in Digest".data ++ ([' '] ++ a.data ++ ": ".data ++ b.data) := by
    simp only [String.data_append]
    simp
  rw [h]
  exact isPrefixOf_append_self _ _

/-- Claim C7: converting a well-formed native digest to the wire
representation and back yields the identical digest (hash and size), and
converting a wire digest whose hash is not valid 64-character hex (such as
the 1-character string `"0"`) fails with an error whose text begins with
`"Bad fingerprint in Digest"`. -/
theorem digest_round_trip_and_bad_fingerprint (d : HashingDigest) (bad : REDigest)
    (hlen : d.fingerprint.length = 32) (hb : ∀ b ∈ d.fingerprint, b < 256)
    (hsz : d.size < 2 ^ 64)
    (hbad : exceptIsOk (Fingerprint.from_hex_string bad.hash) = false) :
    remote_execution_to_digest (digest_to_remote_execution d) = Except.ok d ∧
    exceptIsOk (remote_execution_to_digest bad) = false ∧
    List.isPrefixOf "Bad fingerprint in Digest".data
      (exceptErrText (remote_execution_to_digest bad)).data = true := by
  refine ⟨?_, ?_, ?_⟩
  · unfold remote_execution_to_digest digest_to_remote_execution
    simp only [from_hex_to_hex d.fingerprint hlen hb]
    simp [usize_i64_round d.size hsz]
  · unfold remote_execution_to_digest
    cases hf : Fingerprint.from_hex_string bad.hash with
    | ok fp => rw [hf] at hbad; exact absurd hbad (by simp [exceptIsOk])
    | error e => simp [hf, exceptIsOk]
  · unfold remote_execution_to_digest
    cases hf : Fingerprint.from_hex_string bad.hash with
    | ok fp => rw [hf] at hbad; exact absurd hbad (by simp [exceptIsOk])
    | error e =>
        simp only [hf, exceptErrText]
        exact isPrefixOf_badFingerprint (rustDebugStr bad.hash) e

theorem digest_round_trip_witness :
    goodDigest.fingerprint.length = 32 ∧
    (∀ b ∈ goodDigest.fingerprint, b < 256) ∧
    goodDigest.size < 2 ^ 64 ∧
    exceptIsOk (Fingerprint.from_hex_string badREDigest.hash) = false ∧
    (remote_execution_to_digest (digest_to_remote_execution goodDigest) =
      Except.ok goodDigest ∧
     exceptIsOk (remote_execution_to_digest badREDigest) = false ∧
     List.isPrefixOf "Bad fingerprint in Digest".data
       (exceptErrText (remote_execution_to_digest badREDigest)).data = true) :=
  ⟨rfl, by decide, by decide, rfl,
   digest_round_trip_and_bad_fingerprint goodDigest badREDigest rfl (by decide)
     (by decide) rfl⟩

/-! ## Claim C8: ExecuteRequest conversions with policy fields fail loudly -/

/-- Claim C8 counterexample: a prost `ExecuteRequest` with no policy fields
but also no action digest does not convert successfully — the conversion hits
the missing-digest `.expect` abort — refuting the claim that every request
without policy fields converts successfully. -/
theorem executeRequest_no_policy_can_still_abort :
    v2NoDigestReq.execution_policy = none ∧
    v2NoDigestReq.results_cache_policy = none ∧
    executeRequest_v2_to_re v2NoDigestReq =
      Except.error "Missing digest converting ExecuteRequest proto" :=
  ⟨rfl, rfl, rfl⟩

/-- Claim C8 (amended): an `ExecuteRequest` in either wire representation
that carries an execution-policy or results-cache-policy field fails loudly
(the conversion aborts with the policy panic message) rather than dropping
the field; a request without those fields converts successfully provided its
action digest is present and valid (an absent or invalid digest also
aborts). -/
theorem executeRequest_policy_fields_abort
    (rqP : REExecuteRequest) (rvP : V2ExecuteRequest)
    (rqG : REExecuteRequest) (rvG : V2ExecuteRequest) (adG : V2Digest)
    (hP1 : (rqP.execution_policy.isSome || rqP.results_cache_policy.isSome) = true)
    (hP2 : (rvP.execution_policy.isSome || rvP.results_cache_policy.isSome) = true)
    (hG1a : rqG.execution_policy = none) (hG1b : rqG.results_cache_policy = none)
    (hG1c : exceptIsOk (remote_execution_to_digest rqG.get_action_digest) = true)
    (hG2a : rvG.execution_policy = none) (hG2b : rvG.results_cache_policy = none)
    (hG2c : rvG.action_digest = some adG)
    (hG2d : exceptIsOk (v2_to_digest adG) = true) :
    executeRequest_re_to_v2 rqP = Except.error
      "Can't convert ExecuteRequest protos with execution policy or results cache policy" ∧
    executeRequest_v2_to_re rvP = Except.error
      "Can't convert ExecuteRequest protos with execution policy or results cache policy" ∧
    exceptIsOk (executeRequest_re_to_v2 rqG) = true ∧
    exceptIsOk (executeRequest_v2_to_re rvG) = true := by
  refine ⟨?_, ?_, ?_, ?_⟩
  · unfold executeRequest_re_to_v2
    rw [if_pos hP1]
  · unfold executeRequest_v2_to_re
    rw [if_pos hP2]
  · unfold executeRequest_re_to_v2
    rw [if_neg (by simp [hG1a, hG1b])]
    cases hd : remote_execution_to_digest rqG.get_action_digest with
    | ok dg => simp [hd, exceptIsOk]
    | error e => rw [hd] at hG1c; exact absurd hG1c (by simp [exceptIsOk])
  · unfold executeRequest_v2_to_re
    rw [if_neg (by simp [hG2a, hG2b])]
    rw [hG2c]
    cases hd : v2_to_digest adG with
    | ok dg => simp [hd, exceptIsOk]
    | error e => rw [hd] at hG2d; exact absurd hG2d (by simp [exceptIsOk])

theorem executeRequest_policy_fields_witness :
    (rePolicyReq.execution_policy.isSome || rePolicyReq.results_cache_policy.isSome) = true ∧
    (v2PolicyReq.execution_policy.isSome || v2PolicyReq.results_cache_policy.isSome) = true ∧
    reGoodReq.execution_policy = none ∧ reGoodReq.results_cache_policy = none ∧
    exceptIsOk (remote_execution_to_digest reGoodReq.get_action_digest) = true ∧
    v2GoodReq.execution_policy = none ∧ v2GoodReq.results_cache_policy = none ∧
    v2GoodReq.action_digest = some (digest_to_v2 goodDigest) ∧
    exceptIsOk (v2_to_digest (digest_to_v2 goodDigest)) = true ∧
    (executeRequest_re_to_v2 rePolicyReq = Except.error
      "Can't convert ExecuteRequest protos with execution policy or results cache policy" ∧
     executeRequest_v2_to_re v2PolicyReq = Except.error
      "Can't convert ExecuteRequest protos with execution policy or results cache policy" ∧
     exceptIsOk (executeRequest_re_to_v2 reGoodReq) = true ∧
     exceptIsOk (executeRequest_v2_to_re v2GoodReq) = true) :=
  ⟨rfl, rfl, rfl, rfl, by decide, rfl, rfl, rfl, by decide,
   executeRequest_policy_fields_abort rePolicyReq v2PolicyReq reGoodReq v2GoodReq
     (digest_to_v2 goodDigest) rfl rfl rfl rfl (by decide) rfl rfl rfl (by decide)⟩
